import Mathlib

/-!
Verification of the metrics aggregation engine ("Analysis") of the gateway
repository, a shallow embedding of `pkg/model` (the `point`, `Recently` and
`Analysis` types and their operations).

Modelling conventions:
* Go `int64` / `int` / `time.Duration` values are modelled as `Int`
  (nanoseconds for durations and latencies).  None of the verified
  properties comes close to the 2^63 overflow boundary, so wrap-around is
  not modelled.
* Go maps with pointer values (`map[string]*point`,
  `map[string]map[time.Duration]*Recently`) are modelled as functions into
  `Option`; in-place mutation through the pointer becomes a functional
  update of the map entry.
* A lookup of a missing key in a Go map of pointers yields `nil`; the code
  then dereferences it without a check, which panics at runtime.  Such a
  panic is modelled as `none` in an `Option` result.
* Go integer division truncates toward zero and panics on a zero divisor;
  `goDiv` returns `none` on a zero divisor and `Int.tdiv` otherwise.
  Divisions whose divisor is a nonzero constant are written with
  `Int.tdiv` directly.
* The mutex in `Analysis` only serializes the operations; the embedding is
  sequential, so it is dropped, as is the `taskRunner` handle.
-/

/-- Go integer division: truncation toward zero, `none` on division by
zero (a Go runtime panic). -/
def goDiv (a b : Int) : Option Int :=
  if b = 0 then none else some (Int.tdiv a b)

/-- The `point` struct of `pkg/model`: one bundle of cumulative counters
per monitored key.  All fields are `atomic.Int64` in the source. -/
structure point where
  requests : Int := 0
  rejects : Int := 0
  failure : Int := 0
  successed : Int := 0
  continuousFailure : Int := 0
  costs : Int := 0
  max : Int := 0
  min : Int := 0
deriving DecidableEq

/-- `newPoint`: a zero-initialised point. -/
def newPoint : point := {}

/-- `point.dump`: copies `requests`, `rejects`, `failure`, `successed`,
`max`, `min` and `costs` into `target`, then resets the source's `min` and
`max` to `0`.  Returns `(updated source, updated target)`.  The target's
`continuousFailure` field is not written by the source code, so it keeps
its previous value. -/
def point.dump (p target : point) : point × point :=
  ({ p with min := 0, max := 0 },
   { target with
      requests := p.requests
      rejects := p.rejects
      failure := p.failure
      successed := p.successed
      max := p.max
      min := p.min
      costs := p.costs })

/-- The `Recently` struct: derived statistics for one (key, interval)
window.  `period` is the interval in nanoseconds (`time.Duration`). -/
structure Recently where
  period : Int
  prev : point
  current : point
  dumpCurr : Bool := false
  qps : Int := 0
  requests : Int := 0
  successed : Int := 0
  failure : Int := 0
  rejects : Int := 0
  max : Int := 0
  min : Int := 0
  avg : Int := 0
deriving DecidableEq

/-- `newRecently(period)`: fresh window with two zero buffers. -/
def newRecently (period : Int) : Recently :=
  { period := period, prev := newPoint, current := newPoint }

/-- Clamp-to-zero used on every delta in `Recently.calc`. -/
def clamp0 (x : Int) : Int := if x < 0 then 0 else x

/-- `Recently.calc` (named `calcStats` here because `calc` is a Lean
keyword): recomputes every derived field from the two snapshot buffers.
Deltas are `current - prev`, clamped at 0; `max`/`min` are converted from
nanoseconds to milliseconds (negative values clamped to 0); `avg` is the
cost delta in milliseconds divided by the request delta (0 when the
request delta is 0); `qps` divides the smaller of the success/request
deltas by `period/time.Second`, which is a division by zero — `none` —
whenever `period` truncates to zero whole seconds. -/
def Recently.calcStats (r : Recently) : Option Recently :=
  let requests := clamp0 (r.current.requests - r.prev.requests)
  let successed := clamp0 (r.current.successed - r.prev.successed)
  let failure := clamp0 (r.current.failure - r.prev.failure)
  let rejects := clamp0 (r.current.rejects - r.prev.rejects)
  let maxMs := if r.current.max < 0 then 0
    else Int.tdiv (Int.tdiv r.current.max 1000) 1000
  let minMs := if r.current.min < 0 then 0
    else Int.tdiv (Int.tdiv r.current.min 1000) 1000
  let costs := r.current.costs - r.prev.costs
  let avg := if requests = 0 then 0
    else Int.tdiv (Int.tdiv (Int.tdiv costs 1000) 1000) requests
  match goDiv (if successed > requests then requests else successed)
      (Int.tdiv r.period 1000000000) with
  | none => none
  | some q =>
      some { r with
        requests := requests
        successed := successed
        failure := failure
        rejects := rejects
        max := maxMs
        min := minMs
        avg := avg
        qps := q }

/-- `Recently.record`: dump the live point into the buffer selected by
`dumpCurr` (into `current`, followed by a recomputation, when `dumpCurr`
is true; into `prev` with no recomputation otherwise), then flip
`dumpCurr`.  Returns the updated window and the updated live point, or
`none` when the recomputation panics. -/
def Recently.record (r : Recently) (p : point) : Option (Recently × point) :=
  if r.dumpCurr then
    let pc := p.dump r.current
    match Recently.calcStats { r with current := pc.2 } with
    | none => none
    | some r2 => some ({ r2 with dumpCurr := !r.dumpCurr }, pc.1)
  else
    let pc := p.dump r.prev
    some ({ r with prev := pc.2, dumpCurr := !r.dumpCurr }, pc.1)

/-- Functional update of an `Option`-valued map. -/
def upd {κ α : Type} [DecidableEq κ] (m : κ → Option α) (k : κ) (v : α) :
    κ → Option α :=
  fun k2 => if k2 = k then some v else m k2

/-- The `Analysis` registry: `points` and `recentlyPoints` maps (the mutex
and the task-runner handle carry no state relevant to the claims). -/
structure Analysis where
  points : String → Option point
  recentlyPoints : String → Option (Int → Option Recently)

/-- `NewAnalysis`: empty registry. -/
def emptyAnalysis : Analysis :=
  { points := fun _ => none, recentlyPoints := fun _ => none }

/-- `Analysis.Request`: `p := a.points[key]; p.requests.Incr()`.  When the
key has no point the lookup yields `nil` and the increment dereferences a
nil pointer (modelled `none`); no point is created. -/
def Analysis.Request (a : Analysis) (key : String) : Option Analysis :=
  match a.points key with
  | none => none
  | some p =>
      some { a with points := upd a.points key ({ p with requests := p.requests + 1 }) }

/-- `Analysis.Reject`: increments `rejects`; nil dereference when the key
has no point. -/
def Analysis.Reject (a : Analysis) (key : String) : Option Analysis :=
  match a.points key with
  | none => none
  | some p =>
      some { a with points := upd a.points key ({ p with rejects := p.rejects + 1 }) }

/-- `Analysis.Failure`: increments `failure` and `continuousFailure`; nil
dereference when the key has no point. -/
def Analysis.Failure (a : Analysis) (key : String) : Option Analysis :=
  match a.points key with
  | none => none
  | some p =>
      let p1 := { p with failure := p.failure + 1,
                         continuousFailure := p.continuousFailure + 1 }
      some { a with points := upd a.points key p1 }

/-- `Analysis.Response`: increments `successed`, adds `cost` to `costs`,
resets `continuousFailure` to 0, raises `max` when `cost` exceeds it, and
lowers `min` when `min` is 0 or greater than `cost`; nil dereference when
the key has no point. -/
def Analysis.Response (a : Analysis) (key : String) (cost : Int) : Option Analysis :=
  match a.points key with
  | none => none
  | some p =>
      let p1 := { p with successed := p.successed + 1,
                         costs := p.costs + cost,
                         continuousFailure := 0 }
      let p2 := if p1.max < cost then { p1 with max := cost } else p1
      let p3 := if p2.min = 0 ∨ p2.min > cost then { p2 with min := cost } else p2
      some { a with points := upd a.points key p3 }

/-- Outcome of `Analysis.AddRecentCount`, distinguishing the two early
returns, the normal path that starts a background task, and the path on
which `time.NewTicker` panics (a non-positive interval) after the maps
were already mutated. -/
inductive AddOutcome where
  | noopZero
  | noopExisting
  | started
  | tickerPanic
deriving DecidableEq

/-- `Analysis.AddRecentCount`: returns immediately when `interval == 0`;
otherwise creates the point and the inner window map for `key` when
absent; returns (logged no-op) when a window already exists for
`(key, interval)`; otherwise inserts a fresh `Recently` and calls
`time.NewTicker(interval)` — which panics for a negative interval, after
the maps were mutated — and finally launches the background task. -/
def Analysis.AddRecentCount (a : Analysis) (key : String) (interval : Int) :
    Analysis × AddOutcome :=
  if interval = 0 then (a, AddOutcome.noopZero)
  else
    let pts := match a.points key with
      | none => upd a.points key newPoint
      | some _ => a.points
    let rp := match a.recentlyPoints key with
      | none => upd a.recentlyPoints key (fun _ => none)
      | some _ => a.recentlyPoints
    let inner := (rp key).getD (fun _ => none)
    match inner interval with
    | some _ => ({ points := pts, recentlyPoints := rp }, AddOutcome.noopExisting)
    | none =>
        let rp2 := upd rp key (upd inner interval (newRecently interval))
        if interval < 0 then
          ({ points := pts, recentlyPoints := rp2 }, AddOutcome.tickerPanic)
        else
          ({ points := pts, recentlyPoints := rp2 }, AddOutcome.started)

/-- One `timer.C` tick of the background task of the `(key, interval)`
window (the loop body's tick case): look up the live point (`ok` check),
and when it exists run `recently.record` on it, writing the updated window
and live point back.  `none` models a panic inside the recomputation. -/
def Analysis.tick (a : Analysis) (key : String) (interval : Int) : Option Analysis :=
  match a.points key with
  | none => some a
  | some p =>
      let inner := (a.recentlyPoints key).getD (fun _ => none)
      match inner interval with
      | none => some a
      | some r =>
          match r.record p with
          | none => none
          | some rp =>
              some { a with
                points := upd a.points key rp.2,
                recentlyPoints := upd a.recentlyPoints key (upd inner interval rp.1) }

/-- `Analysis.GetRecentlyRequestCount`: stored request delta, 0 when the
key or interval is not registered. -/
def Analysis.GetRecentlyRequestCount (a : Analysis) (server : String) (interval : Int) : Int :=
  match (a.recentlyPoints server).getD (fun _ => none) interval with
  | none => 0
  | some r => r.requests

/-- `Analysis.GetRecentlyMax`: stored max latency (ms), 0 when absent. -/
def Analysis.GetRecentlyMax (a : Analysis) (server : String) (interval : Int) : Int :=
  match (a.recentlyPoints server).getD (fun _ => none) interval with
  | none => 0
  | some r => r.max

/-- `Analysis.GetRecentlyMin`: stored min latency (ms), 0 when absent. -/
def Analysis.GetRecentlyMin (a : Analysis) (server : String) (interval : Int) : Int :=
  match (a.recentlyPoints server).getD (fun _ => none) interval with
  | none => 0
  | some r => r.min

/-- `Analysis.GetRecentlyAvg`: stored avg latency (ms), 0 when absent. -/
def Analysis.GetRecentlyAvg (a : Analysis) (server : String) (interval : Int) : Int :=
  match (a.recentlyPoints server).getD (fun _ => none) interval with
  | none => 0
  | some r => r.avg

/-- `Analysis.GetQPS`: stored qps, 0 when absent. -/
def Analysis.GetQPS (a : Analysis) (server : String) (interval : Int) : Int :=
  match (a.recentlyPoints server).getD (fun _ => none) interval with
  | none => 0
  | some r => r.qps

/-- `Analysis.GetRecentlyRejectCount`: stored reject delta, 0 when absent. -/
def Analysis.GetRecentlyRejectCount (a : Analysis) (server : String) (interval : Int) : Int :=
  match (a.recentlyPoints server).getD (fun _ => none) interval with
  | none => 0
  | some r => r.rejects

/-- `Analysis.GetRecentlyRequestSuccessedCount`: stored success delta, 0
when absent. -/
def Analysis.GetRecentlyRequestSuccessedCount (a : Analysis) (server : String) (interval : Int) : Int :=
  match (a.recentlyPoints server).getD (fun _ => none) interval with
  | none => 0
  | some r => r.successed

/-- `Analysis.GetRecentlyRequestFailureCount`: stored failure delta, 0
when absent. -/
def Analysis.GetRecentlyRequestFailureCount (a : Analysis) (server : String) (interval : Int) : Int :=
  match (a.recentlyPoints server).getD (fun _ => none) interval with
  | none => 0
  | some r => r.failure

/-- `Analysis.GetContinuousFailureCount`: live consecutive-failure count
off the point itself, 0 when the key is unknown. -/
def Analysis.GetContinuousFailureCount (a : Analysis) (server : String) : Int :=
  match a.points server with
  | none => 0
  | some p => p.continuousFailure

/-- The two channels the background loop's `select` can receive from. -/
inductive LoopEvent where
  | ctxDone
  | timerTick
deriving DecidableEq

/-- Observable effect of one iteration of the background loop body. -/
structure LoopIter where
  timerRunning : Bool
  recorded : Bool
  returns : Bool
deriving DecidableEq

/-- One iteration of the `for { select { ... } }` loop launched by
`AddRecentCount` (lines 180-196 of the source): the `ctx.Done()` case
stops the timer (and logs) but contains no `return` statement, so neither
case ends the iteration with a return; the `timer.C` case records exactly
when the key's point exists.  Go's `select` chooses among ready cases
pseudo-randomly, so after cancellation a pending tick may still be the
chosen event. -/
def analysisLoopIter (timerRunning pointExists : Bool) : LoopEvent → LoopIter
  | LoopEvent.ctxDone =>
      { timerRunning := false, recorded := false, returns := false }
  | LoopEvent.timerTick =>
      { timerRunning := timerRunning, recorded := pointExists, returns := false }

/-- Point registered for `"k"`: the registry state right after a point was
created for the key (as `AddRecentCount` would), with no window. -/
def aP : Analysis :=
  { points := upd (fun _ => none) "k" newPoint, recentlyPoints := fun _ => none }

/-- Inner window map holding one window registered at interval 5ns. -/
def mW : Int → Option Recently := upd (fun _ => none) 5 (newRecently 5)

/-- Registry state with a point for `"k"` and a window at interval 5ns. -/
def aW : Analysis :=
  { points := upd (fun _ => none) "k" newPoint,
    recentlyPoints := upd (fun _ => none) "k" mW }

/-- A window over a 1-second period whose `current` buffer is 10 requests
and 8 successes ahead of `prev`. -/
def rW : Recently :=
  { period := 1000000000, prev := newPoint,
    current := { requests := 10, successed := 8 } }

/-- The result of recomputing `rW`. -/
def rW2 : Recently :=
  { period := 1000000000, prev := newPoint,
    current := { requests := 10, successed := 8 },
    qps := 8, requests := 10, successed := 8 }

/-- Key of the concrete spec scenario. -/
def scenKey : String := "upstream-1"

/-- One second in nanoseconds (`time.Second`). -/
def oneSecondNs : Int := 1000000000

/-- 50 milliseconds in nanoseconds. -/
def ns50ms : Int := 50000000

/-- Scenario: register `"upstream-1"` with a 1-second window. -/
def scenStart : Analysis := (emptyAnalysis.AddRecentCount scenKey oneSecondNs).1

/-- Scenario: the first tick fires before any traffic, dumping the empty
point into the `prev` buffer (warming it). -/
def scenTick1 : Option Analysis := scenStart.tick scenKey oneSecondNs

/-- Scenario: within the next tick, 10 requests, 8 successes of 50 ms and
2 failures. -/
def scenTraffic : Option Analysis :=
  let r10 := (List.range 10).foldl (fun oa _ => oa.bind fun a => a.Request scenKey) scenTick1
  let s8 := (List.range 8).foldl (fun oa _ => oa.bind fun a => a.Response scenKey ns50ms) r10
  (List.range 2).foldl (fun oa _ => oa.bind fun a => a.Failure scenKey) s8

/-- Scenario: the second tick dumps into `current` and recomputes; both
buffers are now warm and the window covers exactly the traffic above. -/
def scenTick2 : Option Analysis := scenTraffic.bind fun a => a.tick scenKey oneSecondNs

/-- Branch shape of the qps computation: picking the other operand when
the second exceeds the first is taking the minimum. -/
theorem if_gt_eq_min (x y : Int) : (if y > x then x else y) = min x y := by
  rcases le_or_lt y x with h | h
  · rw [if_neg (not_lt.mpr h), min_eq_right h]
  · rw [if_pos h, min_eq_left (le_of_lt h)]

/-- Claim C1 (amended): the hot-path mutators do not create a Counter
Point on first reference — when no point exists for the key, each of
`Request`, `Reject`, `Failure` and `Response` dereferences a nil map
value (modelled `none`); when a point exists, each performs exactly its
counter mutation. -/
theorem mutators_require_point (a : Analysis) (key : String) (c : Int) :
    (a.points key = none →
      a.Request key = none ∧ a.Reject key = none ∧ a.Failure key = none ∧
      a.Response key c = none) ∧
    (∀ p, a.points key = some p →
      (∃ a1, a.Request key = some a1 ∧
        a1.points key = some { p with requests := p.requests + 1 }) ∧
      (∃ a1, a.Reject key = some a1 ∧
        a1.points key = some { p with rejects := p.rejects + 1 }) ∧
      (∃ a1, a.Failure key = some a1 ∧
        a1.points key =
          some { p with failure := p.failure + 1, continuousFailure := p.continuousFailure + 1 }) ∧
      (∃ a1, a.Response key c = some a1 ∧ (a1.points key).isSome = true)) := by
  constructor
  · intro h
    simp [Analysis.Request, Analysis.Reject, Analysis.Failure, Analysis.Response, h]
  · intro p hp
    refine ⟨?_, ?_, ?_, ?_⟩
    · simp only [Analysis.Request, hp]
      exact ⟨_, rfl, by simp [upd]⟩
    · simp only [Analysis.Reject, hp]
      exact ⟨_, rfl, by simp [upd]⟩
    · simp only [Analysis.Failure, hp]
      exact ⟨_, rfl, by simp [upd]⟩
    · simp only [Analysis.Response, hp]
      exact ⟨_, rfl, by simp [upd]⟩

/-- Claim C1, counterexample to the claim as stated: on the empty
registry, `Request` of a never-referenced key does not create a point
and has no defined result (nil-pointer dereference), so the mutators are
not total. -/
theorem Request_on_unknown_key_panics :
    emptyAnalysis.Request "k" = none ∧ emptyAnalysis.points "k" = none :=
  ⟨rfl, rfl⟩

/-- Claim C1, witness: the amended theorem applied at the empty registry
(absent key) and at a registry holding a fresh point for `"k"`. -/
theorem mutators_require_point_witness :
    emptyAnalysis.Request "k" = none ∧
    (∃ a1, aP.Request "k" = some a1 ∧
      a1.points "k" = some { newPoint with requests := newPoint.requests + 1 }) :=
  ⟨((mutators_require_point emptyAnalysis "k" 0).1 rfl).1,
   ((mutators_require_point aP "k" 0).2 newPoint rfl).1⟩

/-- Claim C2 (amended): after each recomputation the stored QPS equals
the SMALLER of the request delta and the success delta, divided by the
period in whole seconds (the source branches on `successed > requests`
and then divides the other operand, i.e. the minimum — not the maximum
the spec states). -/
theorem calcStats_qps_is_min (r r2 : Recently) (h : r.calcStats = some r2) :
    Int.tdiv r.period 1000000000 ≠ 0 ∧
    r2.qps = Int.tdiv (min r2.requests r2.successed) (Int.tdiv r.period 1000000000) := by
  unfold Recently.calcStats goDiv at h
  by_cases hd : Int.tdiv r.period 1000000000 = 0
  · simp [hd] at h
  · refine ⟨hd, ?_⟩
    simp only [hd, if_false, Option.some.injEq] at h
    subst h
    simp only [if_gt_eq_min]

/-- Claim C2, counterexample to the claim as stated: with a request delta
of 10 and a success delta of 8 over a 1-second period the stored qps is
8, not `max(10, 8) / 1 = 10`. -/
theorem calcStats_qps_not_max :
    rW.calcStats.map Recently.qps = some 8 ∧
    ¬ (8 : Int) = Int.tdiv (max 10 8) (Int.tdiv rW.period 1000000000) := by
  constructor
  · decide
  · decide

/-- Claim C2, witness: the amended theorem applied to the concrete window
`rW`, whose recomputation is `rW2`. -/
theorem calcStats_qps_is_min_witness :
    rW.calcStats = some rW2 ∧
    rW2.qps = Int.tdiv (min rW2.requests rW2.successed) (Int.tdiv rW.period 1000000000) :=
  ⟨by decide, (calcStats_qps_is_min rW rW2 (by decide)).2⟩

/-- Claim C3 (amended): in the 1-second-window scenario (10 requests, 8
successes of 50 ms, 2 failures within one tick), once both snapshot
buffers are warm the derived average latency reads 40 ms, not 50 ms: the
recomputation divides the latency-cost delta (400 ms total) by the
request delta (10), not by the success delta (8).  The other scenario
reads match the spec: the continuous-failure count is 2 and the request
count is 10. -/
theorem scenario_reads :
    (scenTick2.map fun a => a.GetRecentlyAvg scenKey oneSecondNs) = some 40 ∧
    (scenTick2.map fun a => a.GetContinuousFailureCount scenKey) = some 2 ∧
    (scenTick2.map fun a => a.GetRecentlyRequestCount scenKey oneSecondNs) = some 10 := by
  refine ⟨by decide, by decide, by decide⟩

/-- Claim C3, counterexample to the claim as stated: the warm-buffer
average latency read of the scenario is not 50 ms. -/
theorem scenario_avg_not_fifty :
    ¬ (scenTick2.map fun a => a.GetRecentlyAvg scenKey oneSecondNs) = some 50 := by
  decide

/-- Claim C4 (amended): `AddRecentCount` is a no-op exactly when the
interval is zero (silent) or a window already exists for the pair
(logged).  A negative interval is NOT rejected: the maps are mutated (the
point and the window are created) and `time.NewTicker` then panics, so no
background task starts. -/
theorem AddRecentCount_cases (a : Analysis) (key : String) (i : Int) :
    (i = 0 → a.AddRecentCount key i = (a, AddOutcome.noopZero)) ∧
    (∀ p m r, i ≠ 0 → a.points key = some p → a.recentlyPoints key = some m →
      m i = some r → a.AddRecentCount key i = (a, AddOutcome.noopExisting)) ∧
    (i < 0 → ((a.recentlyPoints key).getD (fun _ => none)) i = none →
      (a.AddRecentCount key i).2 = AddOutcome.tickerPanic ∧
      ((a.AddRecentCount key i).1.recentlyPoints key).getD (fun _ => none) i ≠ none) := by
  refine ⟨?_, ?_, ?_⟩
  · intro h
    simp [Analysis.AddRecentCount, h]
  · intro p m r hne hp hm hr
    simp [Analysis.AddRecentCount, hne, hp, hm, hr]
  · intro hneg hw
    have hne : ¬ i = 0 := by omega
    cases hrp : a.recentlyPoints key with
    | none =>
        cases hp : a.points key with
        | none => simp [Analysis.AddRecentCount, hne, hneg, hp, hrp, upd]
        | some q => simp [Analysis.AddRecentCount, hne, hneg, hp, hrp, upd]
    | some m =>
        rw [hrp] at hw
        simp only [Option.getD_some] at hw
        cases hp : a.points key with
        | none => simp [Analysis.AddRecentCount, hne, hneg, hp, hrp, hw, upd]
        | some q => simp [Analysis.AddRecentCount, hne, hneg, hp, hrp, hw, upd]

/-- Claim C4, counterexample to the claim as stated: on the empty
registry a negative interval of -1ns does not leave the maps unchanged —
a window for `("k", -1)` is inserted before the ticker panic. -/
theorem AddRecentCount_negative_mutates :
    emptyAnalysis.recentlyPoints "k" = none ∧
    ¬ ((emptyAnalysis.AddRecentCount "k" (-1)).1.recentlyPoints "k").getD
        (fun _ => none) (-1) = none := by
  refine ⟨rfl, by decide⟩

/-- Claim C4, witness: the amended theorem applied at interval 0 on the
empty registry, at interval 5 on a registry already holding that window,
and at interval -1 on the empty registry. -/
theorem AddRecentCount_cases_witness :
    emptyAnalysis.AddRecentCount "k" 0 = (emptyAnalysis, AddOutcome.noopZero) ∧
    aW.AddRecentCount "k" 5 = (aW, AddOutcome.noopExisting) ∧
    (emptyAnalysis.AddRecentCount "k" (-1)).2 = AddOutcome.tickerPanic :=
  ⟨(AddRecentCount_cases emptyAnalysis "k" 0).1 rfl,
   (AddRecentCount_cases aW "k" 5).2.1 newPoint mW (newRecently 5)
     (by decide) rfl rfl rfl,
   ((AddRecentCount_cases emptyAnalysis "k" (-1)).2.2 (by decide) rfl).1⟩

/-- Claim C5: the background loop of `AddRecentCount` does not satisfy
the claimed cancellation behaviour.  The `ctx.Done()` case stops the
timer but contains no `return`, so no iteration of the loop body returns
— the loop never terminates — and a pending `timer.C` tick remains a
selectable event whose case still performs a `record` after cancellation
has been delivered. -/
theorem analysisLoop_no_exit_after_cancel :
    (analysisLoopIter true true LoopEvent.ctxDone).returns = false ∧
    (analysisLoopIter true true LoopEvent.ctxDone).timerRunning = false ∧
    (analysisLoopIter false true LoopEvent.timerTick).recorded = true ∧
    (analysisLoopIter false true LoopEvent.timerTick).returns = false := by
  refine ⟨rfl, rfl, rfl, rfl⟩

/-- Claim C6: for any window whose period is positive but strictly
shorter than one second, the recomputation divides by zero when computing
qps (the period truncated to whole seconds is 0), so `calc` is not total
for such windows — while `AddRecentCount` accepts the interval (it
rejects only an interval exactly equal to zero) and registers the window
with a running background task. -/
theorem subsecond_window_div_by_zero (r : Recently) (a : Analysis) (key : String)
    (h1 : 0 < r.period) (h2 : r.period < 1000000000)
    (hw : ((a.recentlyPoints key).getD (fun _ => none)) r.period = none) :
    r.calcStats = none ∧
    (a.AddRecentCount key r.period).2 = AddOutcome.started ∧
    ¬ ((a.AddRecentCount key r.period).1.recentlyPoints key).getD
        (fun _ => none) r.period = none := by
  have hd : Int.tdiv r.period 1000000000 = 0 :=
    Int.tdiv_eq_zero_of_lt (le_of_lt h1) h2
  have hne : ¬ r.period = 0 := by omega
  have hnneg : ¬ r.period < 0 := by omega
  refine ⟨?_, ?_⟩
  · unfold Recently.calcStats goDiv
    simp [hd]
  · cases hrp : a.recentlyPoints key with
    | none =>
        cases hp : a.points key with
        | none => simp [Analysis.AddRecentCount, hne, hnneg, hp, hrp, upd]
        | some q => simp [Analysis.AddRecentCount, hne, hnneg, hp, hrp, upd]
    | some m =>
        rw [hrp] at hw
        simp only [Option.getD_some] at hw
        cases hp : a.points key with
        | none => simp [Analysis.AddRecentCount, hne, hnneg, hp, hrp, hw, upd]
        | some q => simp [Analysis.AddRecentCount, hne, hnneg, hp, hrp, hw, upd]

/-- Claim C6, witness: a fresh half-second window's recomputation is the
division-by-zero panic, while registering that interval on the empty
registry starts a task. -/
theorem subsecond_window_div_by_zero_witness :
    (newRecently 500000000).calcStats = none ∧
    (emptyAnalysis.AddRecentCount "k" 500000000).2 = AddOutcome.started := by
  have h := subsecond_window_div_by_zero (newRecently 500000000) emptyAnalysis "k"
      (by decide) (by decide) rfl
  exact ⟨h.1, h.2.1⟩

/-- Claim C7: a snapshot (`dump`) copies the cumulative fields and the
current extremes into the target, then resets only the source's `max` and
`min` to 0; every cumulative counter of the source and its
continuous-failure streak are unchanged. -/
theorem dump_spec (p target : point) :
    ((p.dump target).2.requests = p.requests ∧
     (p.dump target).2.rejects = p.rejects ∧
     (p.dump target).2.failure = p.failure ∧
     (p.dump target).2.successed = p.successed ∧
     (p.dump target).2.costs = p.costs ∧
     (p.dump target).2.max = p.max ∧
     (p.dump target).2.min = p.min) ∧
    ((p.dump target).1.max = 0 ∧
     (p.dump target).1.min = 0 ∧
     (p.dump target).1.requests = p.requests ∧
     (p.dump target).1.rejects = p.rejects ∧
     (p.dump target).1.failure = p.failure ∧
     (p.dump target).1.successed = p.successed ∧
     (p.dump target).1.costs = p.costs ∧
     (p.dump target).1.continuousFailure = p.continuousFailure) := by
  simp [point.dump]

/-- Claim C8: when the key's Counter Point exists, `Response` increments
`successed` by 1, adds the latency to `costs`, resets the
continuous-failure streak to 0, updates `max` exactly when the latency
exceeds the current max, updates `min` exactly when the current min is 0
or the latency is smaller, and leaves the other counters unchanged. -/
theorem Response_spec (a : Analysis) (key : String) (p : point) (cost : Int)
    (h : a.points key = some p) :
    ∃ a1, a.Response key cost = some a1 ∧
      ∃ p3, a1.points key = some p3 ∧
        p3.successed = p.successed + 1 ∧
        p3.costs = p.costs + cost ∧
        p3.continuousFailure = 0 ∧
        p3.max = (if p.max < cost then cost else p.max) ∧
        p3.min = (if p.min = 0 ∨ p.min > cost then cost else p.min) ∧
        p3.requests = p.requests ∧ p3.rejects = p.rejects ∧
        p3.failure = p.failure := by
  unfold Analysis.Response
  rw [h]
  dsimp only
  by_cases h1 : p.max < cost
  · rw [if_pos h1]
    by_cases h2 : p.min = 0 ∨ p.min > cost
    · rw [if_pos h2]
      exact ⟨_, rfl,
        ⟨p.requests, p.rejects, p.failure, p.successed + 1, 0, p.costs + cost, cost, cost⟩,
        by simp [upd], by simp [h1, h2]⟩
    · rw [if_neg h2]
      exact ⟨_, rfl,
        ⟨p.requests, p.rejects, p.failure, p.successed + 1, 0, p.costs + cost, cost, p.min⟩,
        by simp [upd], by simp [h1, h2]⟩
  · rw [if_neg h1]
    by_cases h2 : p.min = 0 ∨ p.min > cost
    · rw [if_pos h2]
      exact ⟨_, rfl,
        ⟨p.requests, p.rejects, p.failure, p.successed + 1, 0, p.costs + cost, p.max, cost⟩,
        by simp [upd], by simp [h1, h2]⟩
    · rw [if_neg h2]
      exact ⟨_, rfl,
        ⟨p.requests, p.rejects, p.failure, p.successed + 1, 0, p.costs + cost, p.max, p.min⟩,
        by simp [upd], by simp [h1, h2]⟩

/-- Claim C8, witness: `Response` with latency 7 on a registry holding a
fresh point for `"k"`. -/
theorem Response_spec_witness :
    ∃ a1, aP.Response "k" 7 = some a1 ∧
      ∃ p3, a1.points "k" = some p3 ∧
        p3.successed = newPoint.successed + 1 ∧
        p3.costs = newPoint.costs + 7 ∧
        p3.continuousFailure = 0 ∧
        p3.max = (if newPoint.max < 7 then 7 else newPoint.max) ∧
        p3.min = (if newPoint.min = 0 ∨ newPoint.min > 7 then 7 else newPoint.min) ∧
        p3.requests = newPoint.requests ∧ p3.rejects = newPoint.rejects ∧
        p3.failure = newPoint.failure :=
  Response_spec aP "k" newPoint 7 rfl

/-- Claim C9: for a key never referenced (no point, no windows), every
derived-statistics accessor and the continuous-failure accessor returns 0
for any interval; each accessor is a plain function of the registry
state, so these reads mutate nothing. -/
theorem unknown_key_reads_zero (a : Analysis) (key : String) (i : Int)
    (hp : a.points key = none) (hr : a.recentlyPoints key = none) :
    a.GetRecentlyRequestCount key i = 0 ∧
    a.GetRecentlyRequestSuccessedCount key i = 0 ∧
    a.GetRecentlyRequestFailureCount key i = 0 ∧
    a.GetRecentlyRejectCount key i = 0 ∧
    a.GetRecentlyMax key i = 0 ∧
    a.GetRecentlyMin key i = 0 ∧
    a.GetRecentlyAvg key i = 0 ∧
    a.GetQPS key i = 0 ∧
    a.GetContinuousFailureCount key = 0 := by
  simp [Analysis.GetRecentlyRequestCount, Analysis.GetRecentlyRequestSuccessedCount,
    Analysis.GetRecentlyRequestFailureCount, Analysis.GetRecentlyRejectCount,
    Analysis.GetRecentlyMax, Analysis.GetRecentlyMin, Analysis.GetRecentlyAvg,
    Analysis.GetQPS, Analysis.GetContinuousFailureCount, hp, hr]

/-- Claim C9, witness: the accessors on the empty registry for a key that
was never referenced. -/
theorem unknown_key_reads_zero_witness :
    emptyAnalysis.GetRecentlyRequestCount "k" 1 = 0 ∧
    emptyAnalysis.GetRecentlyRequestSuccessedCount "k" 1 = 0 ∧
    emptyAnalysis.GetRecentlyRequestFailureCount "k" 1 = 0 ∧
    emptyAnalysis.GetRecentlyRejectCount "k" 1 = 0 ∧
    emptyAnalysis.GetRecentlyMax "k" 1 = 0 ∧
    emptyAnalysis.GetRecentlyMin "k" 1 = 0 ∧
    emptyAnalysis.GetRecentlyAvg "k" 1 = 0 ∧
    emptyAnalysis.GetQPS "k" 1 = 0 ∧
    emptyAnalysis.GetContinuousFailureCount "k" = 0 :=
  unknown_key_reads_zero emptyAnalysis "k" 1 rfl rfl

/-- Claim C10: when the key's point exists, a success followed by one
failure leaves the continuous-failure streak at 1, and a success resets
the streak to 0 from any prior state. -/
theorem continuousFailure_streak (a : Analysis) (key : String) (p : point) (c : Int)
    (h : a.points key = some p) :
    (∃ a2, (a.Response key c).bind (fun a1 => a1.Failure key) = some a2 ∧
       (a2.points key).map point.continuousFailure = some 1) ∧
    (∀ (b : Analysis) (q : point) (d : Int), b.points key = some q →
       ∃ b1, b.Response key d = some b1 ∧
         (b1.points key).map point.continuousFailure = some 0) := by
  constructor
  · unfold Analysis.Response
    rw [h]
    dsimp only
    split_ifs <;> simp [Analysis.Failure, upd]
  · intro b q d hq
    unfold Analysis.Response
    rw [hq]
    dsimp only
    split_ifs <;> exact ⟨_, rfl, by simp [upd]⟩

/-- Claim C10, witness: the streak facts at the registry holding a fresh
point for `"k"`, with latency 5. -/
theorem continuousFailure_streak_witness :
    (∃ a2, (aP.Response "k" 5).bind (fun a1 => a1.Failure "k") = some a2 ∧
       (a2.points "k").map point.continuousFailure = some 1) ∧
    (∃ b1, aP.Response "k" 5 = some b1 ∧
       (b1.points "k").map point.continuousFailure = some 0) :=
  ⟨(continuousFailure_streak aP "k" newPoint 5 rfl).1,
   (continuousFailure_streak aP "k" newPoint 5 rfl).2 aP newPoint 5 rfl⟩
